import Mathlib

/-!
Shallow embedding of `examples/template_automation.py` (OVN Control Platform
policy-template automation example) and proofs about its orchestration
workflow: per-entity variable construction, validation gating, the
continue-on-validation-failure / abort-on-ServiceError policy, and the
fixed tier order of the deployment run.

The remote template service (HTTP transport, `requests`, `raise_for_status`)
is modelled as an oracle `Backend`: `validate_template` and
`instantiate_template` either return a parsed response or raise a
`ServiceError`, modelled as `Except Unit`.  Each deployer is embedded as a
function producing the ordered trace of client calls it performed, with
exception propagation modelled as truncation of the loop plus an error flag.
-/

/-- A JSON-like scalar value placed into a template variable set.
`Value.null` models Python `None` (e.g. `db.get('backup_server')` when the
key is absent). -/
inductive Value where
  | str (s : String)
  | nat (n : Nat)
  | bool (b : Bool)
  | null
  deriving DecidableEq, Repr

/-- A variable set: the ordered key/value mapping passed as `variables` to
`validate_template` / `instantiate_template`. -/
abbrev VarSet := List (String × Value)

/-- Response of `POST /api/v1/templates/validate`: `{'valid': ..., 'errors': [...]}`. -/
structure ValidationResult where
  valid : Bool
  errors : List String
  deriving DecidableEq, Repr

/-- Response of `POST /api/v1/templates/instantiate`: only
`result['instance']['rules']` is inspected (its length is logged). -/
structure InstantiationResult where
  rules : List String
  deriving DecidableEq, Repr

/-- Oracle for the remote template service consumed by
`OVNCPTemplateClient`.  `Except.error ()` models a raised `ServiceError`
(transport/auth failure, unknown template id, non-2xx response via
`raise_for_status`). -/
structure Backend where
  validate : String → VarSet → Except Unit ValidationResult
  instantiate : String → VarSet → String → Except Unit InstantiationResult

/-- One observable client call made by a deployer. -/
inductive Event where
  | validateCall (templateId : String) (vars : VarSet)
  | instantiateCall (templateId : String) (vars : VarSet) (switch : String)
  deriving DecidableEq, Repr

/-- Result of running a deployer (or the whole run): the ordered trace of
client calls that were actually performed, and whether a `ServiceError`
escaped (truncating the trace at the raising call). -/
structure DeployResult where
  trace : List Event
  error : Bool
  deriving DecidableEq, Repr

/-- Web-tier entity (`servers` list entries).  `Option` fields model keys
that may be absent from the Python dict (`server.get(...)`). -/
structure Server where
  name : String
  ip : String
  allowed_sources : Option String
  enable_ssh : Option Bool
  ssh_sources : Option String
  deriving DecidableEq, Repr

/-- Application-tier entity (`services` list entries). -/
structure Service where
  name : String
  ip : String
  port : Option Nat
  dependencies : List String
  deriving DecidableEq, Repr

/-- Data-tier entity (`databases` list entries).  `type` is the engine type
string (`db['type']`). -/
structure Database where
  name : String
  type : String
  ip : String
  app_subnet : String
  port : Option Nat
  backup_server : Option String
  enable_replication : Option Bool
  replicas : Option (List String)
  deriving DecidableEq, Repr

/-- Secure-resources-tier entity (`resources` list entries). -/
structure SecureResource where
  name : String
  ip : String
  port : Nat
  authorized_users : List String
  require_encryption : Option Bool
  deriving DecidableEq, Repr

/-- Python-dict lookup on an association list built by insertion order:
a later binding of the same key overwrites an earlier one (last wins),
absent key gives `none` (models `d[k]` / `k in d` / `d.get(k)`). -/
def pyLookup {α : Type} (k : String) : List (String × α) → Option α
  | [] => Option.none
  | p :: rest =>
    match pyLookup k rest with
    | Option.none => if p.1 == k then Option.some p.2 else Option.none
    | Option.some v => Option.some v

/-- Variable set built for a web server in `deploy_web_tier` (the same dict
literal appears in both the validate and the instantiate call). -/
def web_server_vars (s : Server) : VarSet :=
  [("server_ip", Value.str s.ip),
   ("allowed_sources", Value.str (s.allowed_sources.getD "0.0.0.0/0")),
   ("enable_ssh", Value.bool (s.enable_ssh.getD true)),
   ("ssh_sources", Value.str (s.ssh_sources.getD "10.0.100.0/24"))]

/-- The per-tier service dependency map `{s['name']: s['ip'] for s in services}`
of `deploy_microservices`, kept in insertion order. -/
def service_ips (services : List Service) : List (String × String) :=
  services.map (fun s => (s.name, s.ip))

/-- The `allowed_ips` loop of `deploy_microservices`: each dependency name
present in the map contributes its IP, names absent from the map are
silently dropped, order of the dependency list is kept. -/
def resolve_dependencies (m : List (String × String)) (deps : List String) : List String :=
  deps.filterMap (fun dep => pyLookup dep m)

/-- Variable set built for a microservice in `deploy_microservices`. -/
def microservice_vars (m : List (String × String)) (svc : Service) : VarSet :=
  [("service_name", Value.str svc.name),
   ("service_ip", Value.str svc.ip),
   ("service_port", Value.nat (svc.port.getD 8080)),
   ("allowed_services", Value.str (String.intercalate "," (resolve_dependencies m svc.dependencies))),
   ("monitoring_subnet", Value.str "10.0.200.0/24")]

/-- The `default_ports` dict of `deploy_databases`. -/
def default_ports : List (String × Nat) :=
  [("mysql", 3306), ("postgresql", 5432), ("mongodb", 27017), ("redis", 6379)]

/-- `port = db.get('port', default_ports.get(db['type'], 3306))`. -/
def db_port (db : Database) : Nat :=
  db.port.getD ((pyLookup db.type default_ports).getD 3306)

/-- Variable set built for a database in `deploy_databases`. -/
def database_vars (db : Database) : VarSet :=
  [("db_ip", Value.str db.ip),
   ("db_port", Value.nat (db_port db)),
   ("app_subnet", Value.str db.app_subnet),
   ("backup_server", match db.backup_server with
      | Option.some s => Value.str s
      | Option.none => Value.null),
   ("enable_replication", Value.bool (db.enable_replication.getD false)),
   ("replica_ips", Value.str (String.intercalate "," (db.replicas.getD [])))]

/-- Variable set built for a secure resource in `deploy_zero_trust_resources`. -/
def zero_trust_vars (r : SecureResource) : VarSet :=
  [("resource_ip", Value.str r.ip),
   ("resource_port", Value.nat r.port),
   ("authorized_users", Value.str (String.intercalate "," r.authorized_users)),
   ("require_encryption", Value.bool (r.require_encryption.getD true))]

/-- `InfrastructureDeployer.deploy_web_tier`: for each server, build the
variables, call `validate_template`; on `valid == false` log and `continue`;
otherwise call `instantiate_template`.  A `ServiceError` from either call
propagates, aborting the loop. -/
def deploy_web_tier (b : Backend) (servers : List Server) (switch : String) : DeployResult :=
  match servers with
  | [] => { trace := [], error := false }
  | s :: rest =>
    let vars := web_server_vars s
    match b.validate "web-server" vars with
    | Except.error _ =>
        { trace := [Event.validateCall "web-server" vars], error := true }
    | Except.ok validation =>
      if validation.valid = false then
        let r := deploy_web_tier b rest switch
        { trace := Event.validateCall "web-server" vars :: r.trace, error := r.error }
      else
        match b.instantiate "web-server" vars switch with
        | Except.error _ =>
            { trace := [Event.validateCall "web-server" vars,
                        Event.instantiateCall "web-server" vars switch],
              error := true }
        | Except.ok _ =>
            let r := deploy_web_tier b rest switch
            { trace := Event.validateCall "web-server" vars ::
                       Event.instantiateCall "web-server" vars switch :: r.trace,
              error := r.error }

/-- The entity loop of `InfrastructureDeployer.deploy_microservices`, after
the dependency map `m` has been built: each service is instantiated directly
(no validate call).  A `ServiceError` aborts the loop. -/
def deploy_microservices_loop (b : Backend) (m : List (String × String))
    (services : List Service) (switch : String) : DeployResult :=
  match services with
  | [] => { trace := [], error := false }
  | svc :: rest =>
    let vars := microservice_vars m svc
    match b.instantiate "microservice" vars switch with
    | Except.error _ =>
        { trace := [Event.instantiateCall "microservice" vars switch], error := true }
    | Except.ok _ =>
        let r := deploy_microservices_loop b m rest switch
        { trace := Event.instantiateCall "microservice" vars switch :: r.trace,
          error := r.error }

/-- `InfrastructureDeployer.deploy_microservices`: builds the name→IP map
once from the whole tier, then runs the entity loop. -/
def deploy_microservices (b : Backend) (services : List Service) (switch : String) : DeployResult :=
  deploy_microservices_loop b (service_ips services) services switch

/-- `InfrastructureDeployer.deploy_databases`: each database is instantiated
directly (no validate call).  A `ServiceError` aborts the loop. -/
def deploy_databases (b : Backend) (databases : List Database) (switch : String) : DeployResult :=
  match databases with
  | [] => { trace := [], error := false }
  | db :: rest =>
    let vars := database_vars db
    match b.instantiate "database-server" vars switch with
    | Except.error _ =>
        { trace := [Event.instantiateCall "database-server" vars switch], error := true }
    | Except.ok _ =>
        let r := deploy_databases b rest switch
        { trace := Event.instantiateCall "database-server" vars switch :: r.trace,
          error := r.error }

/-- `InfrastructureDeployer.deploy_zero_trust_resources`: each resource is
instantiated directly (no validate call).  A `ServiceError` aborts the loop. -/
def deploy_zero_trust_resources (b : Backend) (resources : List SecureResource)
    (switch : String) : DeployResult :=
  match resources with
  | [] => { trace := [], error := false }
  | res :: rest =>
    let vars := zero_trust_vars res
    match b.instantiate "zero-trust" vars switch with
    | Except.error _ =>
        { trace := [Event.instantiateCall "zero-trust" vars switch], error := true }
    | Except.ok _ =>
        let r := deploy_zero_trust_resources b rest switch
        { trace := Event.instantiateCall "zero-trust" vars switch :: r.trace,
          error := r.error }

/-- The `infrastructure` input of `main`: four tiers, each with its target
switch and entity list. -/
structure Infrastructure where
  webSwitch : String
  servers : List Server
  appSwitch : String
  services : List Service
  dataSwitch : String
  databases : List Database
  secureSwitch : String
  resources : List SecureResource
  deriving DecidableEq, Repr

/-- The `try` block of `main`: the four tier deployers run in the fixed
order web → app → data → secure; an uncaught `ServiceError` in any tier
aborts the run immediately (later tiers never start) and surfaces to the
top level. -/
def deploy_all (b : Backend) (infra : Infrastructure) : DeployResult :=
  let r1 := deploy_web_tier b infra.servers infra.webSwitch
  if r1.error then r1
  else
    let r2 := deploy_microservices b infra.services infra.appSwitch
    if r2.error then { trace := r1.trace ++ r2.trace, error := true }
    else
      let r3 := deploy_databases b infra.databases infra.dataSwitch
      if r3.error then { trace := r1.trace ++ r2.trace ++ r3.trace, error := true }
      else
        let r4 := deploy_zero_trust_resources b infra.resources infra.secureSwitch
        { trace := r1.trace ++ r2.trace ++ r3.trace ++ r4.trace, error := r4.error }

/-- A backend on which every call succeeds: validation always passes and
instantiation always reports three rules. -/
def ok_backend : Backend where
  validate := fun _ _ => Except.ok { valid := true, errors := [] }
  instantiate := fun _ _ _ => Except.ok { rules := ["r1", "r2", "r3"] }

/-- A backend whose `instantiate` raises a `ServiceError` exactly on the
`microservice` template; everything else succeeds. -/
def micro_fail_backend : Backend where
  validate := fun _ _ => Except.ok { valid := true, errors := [] }
  instantiate := fun tid _ _ =>
    if tid == "microservice" then Except.error ()
    else Except.ok { rules := ["r1"] }

/-- A backend that rejects (valid == false) exactly the web-server variable
sets whose `server_ip` is the given IP; every other call succeeds. -/
def reject_ip_backend (bad : String) : Backend where
  validate := fun _ vars =>
    if pyLookup "server_ip" vars == Option.some (Value.str bad) then
      Except.ok { valid := false, errors := ["ip rejected"] }
    else Except.ok { valid := true, errors := [] }
  instantiate := fun _ _ _ => Except.ok { rules := ["r1", "r2"] }

/-- `web-1` from the `infrastructure` literal in `main`. -/
def web1 : Server :=
  { name := "web-1", ip := "10.0.1.10", allowed_sources := Option.some "0.0.0.0/0",
    enable_ssh := Option.none, ssh_sources := Option.none }

/-- `web-2` from the `infrastructure` literal in `main`. -/
def web2 : Server :=
  { name := "web-2", ip := "10.0.1.11", allowed_sources := Option.some "0.0.0.0/0",
    enable_ssh := Option.none, ssh_sources := Option.none }

/-- `api-gateway` from the `infrastructure` literal in `main`. -/
def svc_api_gateway : Service :=
  { name := "api-gateway", ip := "10.0.2.10", port := Option.some 8080,
    dependencies := ["user-service", "order-service"] }

/-- `user-service` from the `infrastructure` literal in `main`. -/
def svc_user : Service :=
  { name := "user-service", ip := "10.0.2.11", port := Option.some 8081,
    dependencies := ["auth-service"] }

/-- `order-service` from the `infrastructure` literal in `main`. -/
def svc_order : Service :=
  { name := "order-service", ip := "10.0.2.12", port := Option.some 8082,
    dependencies := ["user-service", "payment-service"] }

/-- `payment-service` from the `infrastructure` literal in `main`. -/
def svc_payment : Service :=
  { name := "payment-service", ip := "10.0.2.13", port := Option.some 8083,
    dependencies := [] }

/-- `auth-service` from the `infrastructure` literal in `main`. -/
def svc_auth : Service :=
  { name := "auth-service", ip := "10.0.2.14", port := Option.some 8084,
    dependencies := [] }

/-- `users-db` from the `infrastructure` literal in `main`. -/
def db_users : Database :=
  { name := "users-db", type := "postgresql", ip := "10.0.3.10",
    app_subnet := "10.0.2.0/24", port := Option.none,
    backup_server := Option.some "10.0.100.50",
    enable_replication := Option.some true,
    replicas := Option.some ["10.0.3.11", "10.0.3.12"] }

/-- `orders-db` from the `infrastructure` literal in `main`. -/
def db_orders : Database :=
  { name := "orders-db", type := "mysql", ip := "10.0.3.20",
    app_subnet := "10.0.2.0/24", port := Option.none,
    backup_server := Option.some "10.0.100.50",
    enable_replication := Option.none, replicas := Option.none }

/-- `cache` from the `infrastructure` literal in `main`. -/
def db_cache : Database :=
  { name := "cache", type := "redis", ip := "10.0.3.30",
    app_subnet := "10.0.2.0/24", port := Option.none,
    backup_server := Option.none, enable_replication := Option.none,
    replicas := Option.none }

/-- `admin-panel` from the `infrastructure` literal in `main`. -/
def res_admin : SecureResource :=
  { name := "admin-panel", ip := "10.0.5.10", port := 443,
    authorized_users := ["10.0.100.10", "10.0.100.11"],
    require_encryption := Option.some true }

/-- `monitoring` from the `infrastructure` literal in `main`. -/
def res_monitoring : SecureResource :=
  { name := "monitoring", ip := "10.0.5.20", port := 3000,
    authorized_users := ["10.0.100.10", "10.0.100.11", "10.0.100.12"],
    require_encryption := Option.some true }

/-- The whole `infrastructure` literal from `main`. -/
def infrastructure : Infrastructure :=
  { webSwitch := "ls-web", servers := [web1, web2],
    appSwitch := "ls-app",
    services := [svc_api_gateway, svc_user, svc_order, svc_payment, svc_auth],
    dataSwitch := "ls-data", databases := [db_users, db_orders, db_cache],
    secureSwitch := "ls-secure", resources := [res_admin, res_monitoring] }

/-- Recognizer for instantiate events in a trace. -/
def isInstantiateCall : Event → Bool
  | Event.instantiateCall _ _ _ => true
  | Event.validateCall _ _ => false

/-- Number of instantiate calls performed in a trace. -/
def countInstantiations (t : List Event) : Nat :=
  (t.filter isInstantiateCall).length

/-- The client calls `deploy_web_tier` makes for one server, given the
backend's answers (used to describe complete, error-free runs). -/
def web_events (b : Backend) (sw : String) (s : Server) : List Event :=
  let vars := web_server_vars s
  match b.validate "web-server" vars with
  | Except.error _ => [Event.validateCall "web-server" vars]
  | Except.ok validation =>
    if validation.valid = false then [Event.validateCall "web-server" vars]
    else [Event.validateCall "web-server" vars,
          Event.instantiateCall "web-server" vars sw]

/-- A web server dict carrying none of the optional keys. -/
def web_plain : Server :=
  { name := "web-3", ip := "10.0.1.12", allowed_sources := Option.none,
    enable_ssh := Option.none, ssh_sources := Option.none }

/-- A secure resource dict with no `require_encryption` key. -/
def res_plain : SecureResource :=
  { name := "vault", ip := "10.0.5.30", port := 8200,
    authorized_users := ["10.0.100.10"], require_encryption := Option.none }

/-- A database with an engine type outside the `default_ports` table and no
explicit port (the spec's `oracle` example). -/
def db_oracle : Database :=
  { name := "legacy", type := "oracle", ip := "10.0.3.40",
    app_subnet := "10.0.2.0/24", port := Option.none,
    backup_server := Option.none, enable_replication := Option.none,
    replicas := Option.none }

/-- Service `A` of the spec's dependency-resolution example
(`{A:ip1 depends on [B,Z], B:ip2}`). -/
def svc_a : Service :=
  { name := "A", ip := "ip1", port := Option.none, dependencies := ["B", "Z"] }

/-- Service `B` of the spec's dependency-resolution example. -/
def svc_b : Service :=
  { name := "B", ip := "ip2", port := Option.none, dependencies := [] }




/-- The IP recorded for the (unique) service with a given name in a tier,
reading the spec's phrase "the IPs of those dependency names". -/
def tier_ip_of (svcs : List Service) (d : String) : String :=
  ((svcs.find? (fun s => s.name == d)).map Service.ip).getD ""

/-- Dependency resolution as the spec words it: keep exactly the dependency
names present in the tier's Service set, in their listed order, and map
each to its service's IP; names absent from the tier are silently omitted. -/
def spec_resolve (svcs : List Service) (deps : List String) : List String :=
  (deps.filter (fun d => svcs.any (fun s => s.name == d))).map (tier_ip_of svcs)

theorem pyLookup_eq_none {α : Type} (k : String) (m : List (String × α))
    (h : ∀ p ∈ m, p.1 ≠ k) : pyLookup k m = Option.none := by
  induction m with
  | nil => rfl
  | cons p rest ih =>
    have hk : (p.1 == k) = false :=
      beq_eq_false_iff_ne.mpr (h p (List.mem_cons_self p rest))
    have hr : pyLookup k rest = Option.none :=
      ih (fun q hq => h q (List.mem_cons_of_mem p hq))
    simp [pyLookup, hr, hk]

theorem pyLookup_of_nodup {α : Type} (k : String) (m : List (String × α))
    (h : (m.map Prod.fst).Nodup) :
    pyLookup k m = (m.find? (fun p => p.1 == k)).map Prod.snd := by
  induction m with
  | nil => rfl
  | cons p rest ih =>
    rw [List.map_cons, List.nodup_cons] at h
    by_cases hk : p.1 = k
    · have hr : pyLookup k rest = Option.none := by
        refine pyLookup_eq_none k rest (fun q hq hqk => h.1 ?_)
        exact List.mem_map.mpr ⟨q, hq, by rw [hqk, hk]⟩
      simp [pyLookup, List.find?, hr, hk]
    · have hk' : (p.1 == k) = false := beq_eq_false_iff_ne.mpr hk
      rw [List.find?]
      rw [hk']
      rw [← ih h.2]
      cases hr : pyLookup k rest with
      | none => simp [pyLookup, hr, hk']
      | some v => simp [pyLookup, hr]

theorem deploy_web_tier_append (b : Backend) (xs ys : List Server) (sw : String) :
    deploy_web_tier b (xs ++ ys) sw =
      if (deploy_web_tier b xs sw).error = true
      then deploy_web_tier b xs sw
      else { trace := (deploy_web_tier b xs sw).trace ++ (deploy_web_tier b ys sw).trace,
             error := (deploy_web_tier b ys sw).error } := by
  induction xs with
  | nil => simp [deploy_web_tier]
  | cons s rest ih =>
    cases hv : b.validate "web-server" (web_server_vars s) with
    | error e => simp [deploy_web_tier, hv]
    | ok validation =>
      by_cases hval : validation.valid = false
      · by_cases he : (deploy_web_tier b rest sw).error = true
        · simp [deploy_web_tier, hv, hval, ih, he]
        · simp [deploy_web_tier, hv, hval, ih, he]
      · cases hi : b.instantiate "web-server" (web_server_vars s) sw with
        | error e => simp [deploy_web_tier, hv, hval, hi]
        | ok res =>
          by_cases he : (deploy_web_tier b rest sw).error = true
          · simp [deploy_web_tier, hv, hval, hi, ih, he]
          · simp [deploy_web_tier, hv, hval, hi, ih, he]

theorem deploy_microservices_loop_append (b : Backend) (m : List (String × String))
    (xs ys : List Service) (sw : String) :
    deploy_microservices_loop b m (xs ++ ys) sw =
      if (deploy_microservices_loop b m xs sw).error = true
      then deploy_microservices_loop b m xs sw
      else { trace := (deploy_microservices_loop b m xs sw).trace ++
                      (deploy_microservices_loop b m ys sw).trace,
             error := (deploy_microservices_loop b m ys sw).error } := by
  induction xs with
  | nil => simp [deploy_microservices_loop]
  | cons svc rest ih =>
    cases hi : b.instantiate "microservice" (microservice_vars m svc) sw with
    | error e => simp [deploy_microservices_loop, hi]
    | ok res =>
      by_cases he : (deploy_microservices_loop b m rest sw).error = true
      · simp [deploy_microservices_loop, hi, ih, he]
      · simp [deploy_microservices_loop, hi, ih, he]

theorem deploy_databases_append (b : Backend) (xs ys : List Database) (sw : String) :
    deploy_databases b (xs ++ ys) sw =
      if (deploy_databases b xs sw).error = true
      then deploy_databases b xs sw
      else { trace := (deploy_databases b xs sw).trace ++ (deploy_databases b ys sw).trace,
             error := (deploy_databases b ys sw).error } := by
  induction xs with
  | nil => simp [deploy_databases]
  | cons db rest ih =>
    cases hi : b.instantiate "database-server" (database_vars db) sw with
    | error e => simp [deploy_databases, hi]
    | ok res =>
      by_cases he : (deploy_databases b rest sw).error = true
      · simp [deploy_databases, hi, ih, he]
      · simp [deploy_databases, hi, ih, he]

theorem deploy_zero_trust_resources_append (b : Backend) (xs ys : List SecureResource)
    (sw : String) :
    deploy_zero_trust_resources b (xs ++ ys) sw =
      if (deploy_zero_trust_resources b xs sw).error = true
      then deploy_zero_trust_resources b xs sw
      else { trace := (deploy_zero_trust_resources b xs sw).trace ++
                      (deploy_zero_trust_resources b ys sw).trace,
             error := (deploy_zero_trust_resources b ys sw).error } := by
  induction xs with
  | nil => simp [deploy_zero_trust_resources]
  | cons res rest ih =>
    cases hi : b.instantiate "zero-trust" (zero_trust_vars res) sw with
    | error e => simp [deploy_zero_trust_resources, hi]
    | ok r0 =>
      by_cases he : (deploy_zero_trust_resources b rest sw).error = true
      · simp [deploy_zero_trust_resources, hi, ih, he]
      · simp [deploy_zero_trust_resources, hi, ih, he]

theorem deploy_web_tier_trace_of_no_error (b : Backend) (l : List Server) (sw : String)
    (h : (deploy_web_tier b l sw).error = false) :
    (deploy_web_tier b l sw).trace = l.flatMap (web_events b sw) := by
  induction l with
  | nil => simp [deploy_web_tier]
  | cons s rest ih =>
    cases hv : b.validate "web-server" (web_server_vars s) with
    | error e => simp [deploy_web_tier, hv] at h
    | ok validation =>
      by_cases hval : validation.valid = false
      · rw [deploy_web_tier, hv] at h ⊢
        simp only [hval, if_pos rfl] at h ⊢
        simp [List.flatMap_cons, web_events, hv, hval, ih h]
      · cases hi : b.instantiate "web-server" (web_server_vars s) sw with
        | error e =>
          rw [deploy_web_tier, hv] at h
          simp [hval, hi] at h
        | ok res =>
          rw [deploy_web_tier, hv] at h ⊢
          simp only [hval, if_neg, hi] at h ⊢
          simp [List.flatMap_cons, web_events, hv, hval, ih h]

theorem deploy_microservices_loop_trace_of_no_error (b : Backend)
    (m : List (String × String)) (l : List Service) (sw : String)
    (h : (deploy_microservices_loop b m l sw).error = false) :
    (deploy_microservices_loop b m l sw).trace =
      l.map (fun svc => Event.instantiateCall "microservice" (microservice_vars m svc) sw) := by
  induction l with
  | nil => simp [deploy_microservices_loop]
  | cons svc rest ih =>
    cases hi : b.instantiate "microservice" (microservice_vars m svc) sw with
    | error e => simp [deploy_microservices_loop, hi] at h
    | ok res =>
      rw [deploy_microservices_loop, hi] at h ⊢
      simp only [List.map_cons]
      simp at h ⊢
      exact ih h

theorem deploy_databases_trace_of_no_error (b : Backend) (l : List Database) (sw : String)
    (h : (deploy_databases b l sw).error = false) :
    (deploy_databases b l sw).trace =
      l.map (fun db => Event.instantiateCall "database-server" (database_vars db) sw) := by
  induction l with
  | nil => simp [deploy_databases]
  | cons db rest ih =>
    cases hi : b.instantiate "database-server" (database_vars db) sw with
    | error e => simp [deploy_databases, hi] at h
    | ok res =>
      rw [deploy_databases, hi] at h ⊢
      simp only [List.map_cons]
      simp at h ⊢
      exact ih h

theorem deploy_zero_trust_resources_trace_of_no_error (b : Backend)
    (l : List SecureResource) (sw : String)
    (h : (deploy_zero_trust_resources b l sw).error = false) :
    (deploy_zero_trust_resources b l sw).trace =
      l.map (fun r => Event.instantiateCall "zero-trust" (zero_trust_vars r) sw) := by
  induction l with
  | nil => simp [deploy_zero_trust_resources]
  | cons r0 rest ih =>
    cases hi : b.instantiate "zero-trust" (zero_trust_vars r0) sw with
    | error e => simp [deploy_zero_trust_resources, hi] at h
    | ok res =>
      rw [deploy_zero_trust_resources, hi] at h ⊢
      simp only [List.map_cons]
      simp at h ⊢
      exact ih h

theorem deploy_microservices_loop_only_instantiate (b : Backend)
    (m : List (String × String)) (l : List Service) (sw : String) :
    ∀ e ∈ (deploy_microservices_loop b m l sw).trace, isInstantiateCall e = true := by
  induction l with
  | nil => simp [deploy_microservices_loop]
  | cons svc rest ih =>
    cases hi : b.instantiate "microservice" (microservice_vars m svc) sw with
    | error e0 =>
      rw [deploy_microservices_loop, hi]
      simp [isInstantiateCall]
    | ok res =>
      rw [deploy_microservices_loop, hi]
      intro e he
      simp only [List.mem_cons] at he
      cases he with
      | inl h0 => rw [h0]; rfl
      | inr h0 => exact ih e h0

theorem deploy_databases_only_instantiate (b : Backend) (l : List Database) (sw : String) :
    ∀ e ∈ (deploy_databases b l sw).trace, isInstantiateCall e = true := by
  induction l with
  | nil => simp [deploy_databases]
  | cons db rest ih =>
    cases hi : b.instantiate "database-server" (database_vars db) sw with
    | error e0 =>
      rw [deploy_databases, hi]
      simp [isInstantiateCall]
    | ok res =>
      rw [deploy_databases, hi]
      intro e he
      simp only [List.mem_cons] at he
      cases he with
      | inl h0 => rw [h0]; rfl
      | inr h0 => exact ih e h0

theorem deploy_zero_trust_resources_only_instantiate (b : Backend)
    (l : List SecureResource) (sw : String) :
    ∀ e ∈ (deploy_zero_trust_resources b l sw).trace, isInstantiateCall e = true := by
  induction l with
  | nil => simp [deploy_zero_trust_resources]
  | cons r0 rest ih =>
    cases hi : b.instantiate "zero-trust" (zero_trust_vars r0) sw with
    | error e0 =>
      rw [deploy_zero_trust_resources, hi]
      simp [isInstantiateCall]
    | ok res =>
      rw [deploy_zero_trust_resources, hi]
      intro e he
      simp only [List.mem_cons] at he
      cases he with
      | inl h0 => rw [h0]; rfl
      | inr h0 => exact ih e h0

/-- C5: for every Database entity with no explicit port, `db_port` equals the
engine-type lookup {mysql: 3306, postgresql: 5432, mongodb: 27017,
redis: 6379}, and equals 3306 for any engine type outside this set; an
explicit port always overrides the lookup. -/
theorem db_port_spec (db : Database) :
    (∀ p, db.port = Option.some p → db_port db = p) ∧
    (db.port = Option.none →
      db_port db =
        (if db.type = "mysql" then 3306
         else if db.type = "postgresql" then 5432
         else if db.type = "mongodb" then 27017
         else if db.type = "redis" then 6379
         else 3306)) := by
  constructor
  · intro p hp
    simp [db_port, hp]
  · intro hp
    rw [db_port, hp, Option.getD_none]
    by_cases h1 : db.type = "mysql"
    · rw [h1]; decide
    by_cases h2 : db.type = "postgresql"
    · rw [h2]; decide
    by_cases h3 : db.type = "mongodb"
    · rw [h3]; decide
    by_cases h4 : db.type = "redis"
    · rw [h4]; decide
    have hnone : pyLookup db.type default_ports = Option.none := by
      refine pyLookup_eq_none _ _ ?_
      intro p hp0
      simp only [default_ports, List.mem_cons, List.not_mem_nil, or_false] at hp0
      rcases hp0 with h | h | h | h <;> subst h
      · exact fun hh => h1 hh.symm
      · exact fun hh => h2 hh.symm
      · exact fun hh => h3 hh.symm
      · exact fun hh => h4 hh.symm
    rw [hnone]
    simp [h1, h2, h3, h4]

/-- Witness for C5: the spec's own example — an `oracle` database with no
explicit port resolves to 3306. -/
theorem db_port_spec_witness : db_port db_oracle = 3306 := by
  have h := (db_port_spec db_oracle).2 rfl
  rw [h]
  decide

/-- C7: for every Server entity, `allowed_sources` defaults to "0.0.0.0/0",
`enable_ssh` defaults to true, and `ssh_sources` defaults to
"10.0.100.0/24"; explicit attributes override these defaults. -/
theorem web_server_defaults (s : Server) :
    (s.allowed_sources = Option.none →
      pyLookup "allowed_sources" (web_server_vars s) =
        Option.some (Value.str "0.0.0.0/0")) ∧
    (∀ a, s.allowed_sources = Option.some a →
      pyLookup "allowed_sources" (web_server_vars s) = Option.some (Value.str a)) ∧
    (s.enable_ssh = Option.none →
      pyLookup "enable_ssh" (web_server_vars s) = Option.some (Value.bool true)) ∧
    (∀ e, s.enable_ssh = Option.some e →
      pyLookup "enable_ssh" (web_server_vars s) = Option.some (Value.bool e)) ∧
    (s.ssh_sources = Option.none →
      pyLookup "ssh_sources" (web_server_vars s) =
        Option.some (Value.str "10.0.100.0/24")) ∧
    (∀ x, s.ssh_sources = Option.some x →
      pyLookup "ssh_sources" (web_server_vars s) = Option.some (Value.str x)) := by
  refine ⟨?_, ?_, ?_, ?_, ?_, ?_⟩ <;> first
  | (intro h; simp [web_server_vars, pyLookup, h])
  | (intro a h; simp [web_server_vars, pyLookup, h])

/-- Witness for C7: a server dict with none of the optional keys receives
all three defaults. -/
theorem web_server_defaults_witness :
    pyLookup "allowed_sources" (web_server_vars web_plain) =
      Option.some (Value.str "0.0.0.0/0") ∧
    pyLookup "enable_ssh" (web_server_vars web_plain) =
      Option.some (Value.bool true) ∧
    pyLookup "ssh_sources" (web_server_vars web_plain) =
      Option.some (Value.str "10.0.100.0/24") :=
  ⟨(web_server_defaults web_plain).1 rfl,
   (web_server_defaults web_plain).2.2.1 rfl,
   (web_server_defaults web_plain).2.2.2.2.1 rfl⟩

/-- C8: for every SecureResource entity, `authorized_users` is the
comma-joined string of the entity's authorized-user addresses in their given
order, and `require_encryption` defaults to true when absent (an explicit
attribute overrides). -/
theorem zero_trust_defaults (r : SecureResource) :
    pyLookup "authorized_users" (zero_trust_vars r) =
      Option.some (Value.str (String.intercalate "," r.authorized_users)) ∧
    (r.require_encryption = Option.none →
      pyLookup "require_encryption" (zero_trust_vars r) =
        Option.some (Value.bool true)) ∧
    (∀ e, r.require_encryption = Option.some e →
      pyLookup "require_encryption" (zero_trust_vars r) =
        Option.some (Value.bool e)) := by
  refine ⟨?_, ?_, ?_⟩
  · simp [zero_trust_vars, pyLookup]
  · intro h; simp [zero_trust_vars, pyLookup, h]
  · intro e h; simp [zero_trust_vars, pyLookup, h]

/-- Witness for C8: a resource without `require_encryption` gets the default
true, and its single authorized user serializes without separators. -/
theorem zero_trust_defaults_witness :
    pyLookup "authorized_users" (zero_trust_vars res_plain) =
      Option.some (Value.str (String.intercalate "," ["10.0.100.10"])) ∧
    pyLookup "require_encryption" (zero_trust_vars res_plain) =
      Option.some (Value.bool true) :=
  ⟨(zero_trust_defaults res_plain).1,
   (zero_trust_defaults res_plain).2.1 rfl⟩

/-- C9: variable construction is deterministic — for every entity kind, two
constructions from identical entity and tier-context inputs produce
identical variable mappings. -/
theorem variable_builder_deterministic
    (s1 s2 : Server) (m1 m2 : List (String × String)) (v1 v2 : Service)
    (d1 d2 : Database) (r1 r2 : SecureResource)
    (hs : s1 = s2) (hm : m1 = m2) (hv : v1 = v2) (hd : d1 = d2) (hr : r1 = r2) :
    web_server_vars s1 = web_server_vars s2 ∧
    microservice_vars m1 v1 = microservice_vars m2 v2 ∧
    database_vars d1 = database_vars d2 ∧
    zero_trust_vars r1 = zero_trust_vars r2 := by
  subst hs; subst hm; subst hv; subst hd; subst hr
  exact ⟨rfl, rfl, rfl, rfl⟩

/-- Witness for C9: two invocations on the same fixture entities agree. -/
theorem variable_builder_deterministic_witness :
    web_server_vars web1 = web_server_vars web1 ∧
    microservice_vars (service_ips [svc_a, svc_b]) svc_a =
      microservice_vars (service_ips [svc_a, svc_b]) svc_a ∧
    database_vars db_users = database_vars db_users ∧
    zero_trust_vars res_admin = zero_trust_vars res_admin :=
  variable_builder_deterministic web1 web1 (service_ips [svc_a, svc_b])
    (service_ips [svc_a, svc_b]) svc_a svc_a db_users db_users res_admin res_admin
    rfl rfl rfl rfl rfl

/-- C10: for every Database entity, absent optional attributes yield fixed
variable values rather than omitted keys — `backup_server` is present with
value null, `enable_replication` is false, `replica_ips` is the empty
string. -/
theorem database_absent_defaults (db : Database) :
    (db.backup_server = Option.none →
      pyLookup "backup_server" (database_vars db) = Option.some Value.null) ∧
    (db.enable_replication = Option.none →
      pyLookup "enable_replication" (database_vars db) =
        Option.some (Value.bool false)) ∧
    (db.replicas = Option.none →
      pyLookup "replica_ips" (database_vars db) = Option.some (Value.str "")) := by
  refine ⟨?_, ?_, ?_⟩
  · intro h; simp [database_vars, pyLookup, h]
  · intro h; simp [database_vars, pyLookup, h]
  · intro h
    simp [database_vars, pyLookup, h]
    decide

/-- Witness for C10: the `cache` database of the `main` fixture, which omits
all three optional keys. -/
theorem database_absent_defaults_witness :
    pyLookup "backup_server" (database_vars db_cache) = Option.some Value.null ∧
    pyLookup "enable_replication" (database_vars db_cache) =
      Option.some (Value.bool false) ∧
    pyLookup "replica_ips" (database_vars db_cache) = Option.some (Value.str "") :=
  ⟨(database_absent_defaults db_cache).1 rfl,
   (database_absent_defaults db_cache).2.1 rfl,
   (database_absent_defaults db_cache).2.2 rfl⟩

/-- C4: for every Service entity, the resolved allowed-IP list equals the
IPs of those dependency names that occur as Service names in the same tier,
in the order the dependency names are listed, with any absent name silently
omitted.  (Entity names are unique within a tier — a spec data-model
invariant.) -/
theorem dependency_resolution_spec (svcs : List Service) (deps : List String)
    (hnodup : (svcs.map Service.name).Nodup) :
    resolve_dependencies (service_ips svcs) deps = spec_resolve svcs deps := by
  have hkeys : (service_ips svcs).map Prod.fst = svcs.map Service.name := by
    simp [service_ips]
  have hlook : ∀ d, pyLookup d (service_ips svcs) =
      (svcs.find? (fun s => s.name == d)).map Service.ip := by
    intro d
    rw [pyLookup_of_nodup d (service_ips svcs) (by rw [hkeys]; exact hnodup)]
    rw [service_ips, List.find?_map]
    rw [Option.map_map]
    rfl
  induction deps with
  | nil => rfl
  | cons d rest ih =>
    simp only [resolve_dependencies, spec_resolve] at ih ⊢
    rw [List.filterMap_cons, List.filter_cons, hlook d]
    cases hf : svcs.find? (fun s => s.name == d) with
    | none =>
      have hany : (svcs.any (fun s => s.name == d)) = false := by
        rw [← Bool.not_eq_true]
        intro hcontra
        obtain ⟨x, hx, hpx⟩ := List.any_eq_true.mp hcontra
        have hsome : (svcs.find? (fun s => s.name == d)).isSome = true :=
          List.find?_isSome.mpr ⟨x, hx, hpx⟩
        rw [hf] at hsome
        simp at hsome
      simp [hany, ih]
    | some s0 =>
      have hps0 := List.find?_some hf
      have hany : (svcs.any (fun s => s.name == d)) = true :=
        List.any_eq_true.mpr ⟨s0, List.mem_of_find?_eq_some hf, hps0⟩
      simp only [Option.map_some', hany, ite_true, List.map_cons]
      rw [ih, tier_ip_of, hf]
      rfl

/-- Witness for C4: the spec's example — tier `{A:ip1 depends on [B,Z],
B:ip2}` resolves A's dependencies to `[ip2]`. -/
theorem dependency_resolution_spec_witness :
    resolve_dependencies (service_ips [svc_a, svc_b]) svc_a.dependencies =
      spec_resolve [svc_a, svc_b] svc_a.dependencies ∧
    resolve_dependencies (service_ips [svc_a, svc_b]) svc_a.dependencies = ["ip2"] := by
  constructor
  · exact dependency_resolution_spec [svc_a, svc_b] svc_a.dependencies (by decide)
  · decide

theorem deploy_web_tier_all_valid (b : Backend) (l : List Server) (sw : String)
    (h : ∀ s ∈ l,
      (∃ v, b.validate "web-server" (web_server_vars s) = Except.ok v ∧ v.valid = true) ∧
      (∃ i, b.instantiate "web-server" (web_server_vars s) sw = Except.ok i)) :
    deploy_web_tier b l sw =
      { trace := l.flatMap (fun s =>
          [Event.validateCall "web-server" (web_server_vars s),
           Event.instantiateCall "web-server" (web_server_vars s) sw]),
        error := false } := by
  induction l with
  | nil => simp [deploy_web_tier]
  | cons s rest ih =>
    obtain ⟨⟨v, hv, hvalid⟩, ⟨i, hi⟩⟩ := h s (List.mem_cons_self s rest)
    have hrest := ih (fun q hq => h q (List.mem_cons_of_mem s hq))
    rw [deploy_web_tier, hv]
    simp [hvalid, hi, hrest, List.flatMap_cons]

theorem countInstantiations_append (a c : List Event) :
    countInstantiations (a ++ c) = countInstantiations a + countInstantiations c := by
  simp [countInstantiations, List.filter_append]

theorem countInstantiations_validate_cons (tid : String) (vars : VarSet) (t : List Event) :
    countInstantiations (Event.validateCall tid vars :: t) = countInstantiations t := by
  simp [countInstantiations, List.filter_cons, isInstantiateCall]

theorem countInstantiations_web_pairs (l : List Server) (sw : String) :
    countInstantiations (l.flatMap (fun s =>
      [Event.validateCall "web-server" (web_server_vars s),
       Event.instantiateCall "web-server" (web_server_vars s) sw])) = l.length := by
  induction l with
  | nil => rfl
  | cons s rest ih =>
    rw [List.flatMap_cons, countInstantiations_append, ih]
    simp [countInstantiations, List.filter_cons, isInstantiateCall, Nat.add_comm]

/-- C3: in a web tier of N servers where validation returns valid == false
for exactly one entity and no ServiceError occurs, the deployer skips that
entity's instantiation, still attempts every later entity, and performs
exactly N-1 instantiations.  (`xs` are the entities before the failing one,
`ys` the ones after it.) -/
theorem validation_failure_is_soft (b : Backend) (sw : String)
    (xs ys : List Server) (bad : Server)
    (hgood : ∀ s ∈ xs ++ ys,
      (∃ v, b.validate "web-server" (web_server_vars s) = Except.ok v ∧ v.valid = true) ∧
      (∃ i, b.instantiate "web-server" (web_server_vars s) sw = Except.ok i))
    (hbad : ∃ v, b.validate "web-server" (web_server_vars bad) = Except.ok v ∧
      v.valid = false) :
    (deploy_web_tier b (xs ++ bad :: ys) sw).error = false ∧
    countInstantiations (deploy_web_tier b (xs ++ bad :: ys) sw).trace =
      xs.length + ys.length ∧
    (∀ s ∈ xs ++ ys,
      Event.instantiateCall "web-server" (web_server_vars s) sw ∈
        (deploy_web_tier b (xs ++ bad :: ys) sw).trace) ∧
    (web_server_vars bad ∉ (xs ++ ys).map web_server_vars →
      Event.instantiateCall "web-server" (web_server_vars bad) sw ∉
        (deploy_web_tier b (xs ++ bad :: ys) sw).trace) := by
  obtain ⟨v, hv, hvalid⟩ := hbad
  have hxs := deploy_web_tier_all_valid b xs sw
    (fun s hs => hgood s (List.mem_append_left ys hs))
  have hys := deploy_web_tier_all_valid b ys sw
    (fun s hs => hgood s (List.mem_append_right xs hs))
  have hcons : deploy_web_tier b (bad :: ys) sw =
      { trace := Event.validateCall "web-server" (web_server_vars bad) ::
          (ys.flatMap (fun s =>
            [Event.validateCall "web-server" (web_server_vars s),
             Event.instantiateCall "web-server" (web_server_vars s) sw])),
        error := false } := by
    rw [deploy_web_tier, hv]
    simp [hvalid, hys]
  have hall : deploy_web_tier b (xs ++ bad :: ys) sw =
      { trace := (xs.flatMap (fun s =>
          [Event.validateCall "web-server" (web_server_vars s),
           Event.instantiateCall "web-server" (web_server_vars s) sw])) ++
          Event.validateCall "web-server" (web_server_vars bad) ::
          (ys.flatMap (fun s =>
            [Event.validateCall "web-server" (web_server_vars s),
             Event.instantiateCall "web-server" (web_server_vars s) sw])),
        error := false } := by
    rw [deploy_web_tier_append, hxs, hcons]
    simp
  refine ⟨?_, ?_, ?_, ?_⟩
  · rw [hall]
  · rw [hall]
    simp only [countInstantiations_append, countInstantiations_validate_cons,
      countInstantiations_web_pairs]
  · intro s hs
    rw [hall]
    simp only [List.mem_append, List.mem_cons]
    rcases List.mem_append.mp hs with h0 | h0
    · exact Or.inl (List.mem_flatMap.mpr ⟨s, h0, by simp⟩)
    · exact Or.inr (Or.inr (List.mem_flatMap.mpr ⟨s, h0, by simp⟩))
  · intro hnotin hm
    rw [hall] at hm
    simp only [List.mem_append, List.mem_cons] at hm
    rcases hm with h0 | h0 | h0
    · obtain ⟨s, hs, hes⟩ := List.mem_flatMap.mp h0
      simp only [List.mem_cons, List.not_mem_nil, or_false] at hes
      rcases hes with he | he
      · exact Event.noConfusion he
      · have : web_server_vars bad = web_server_vars s := by
          injection he with h1 h2 h3
        exact hnotin (List.mem_map.mpr ⟨s, List.mem_append_left ys hs, this.symm⟩)
    · exact Event.noConfusion h0
    · obtain ⟨s, hs, hes⟩ := List.mem_flatMap.mp h0
      simp only [List.mem_cons, List.not_mem_nil, or_false] at hes
      rcases hes with he | he
      · exact Event.noConfusion he
      · have : web_server_vars bad = web_server_vars s := by
          injection he with h1 h2 h3
        exact hnotin (List.mem_map.mpr ⟨s, List.mem_append_right xs hs, this.symm⟩)

/-- Witness for C3: `web-2`'s IP is rejected by validation; the two-server
web tier still finishes without error and performs exactly one
instantiation (N = 2, N-1 = 1). -/
theorem validation_failure_is_soft_witness :
    (deploy_web_tier (reject_ip_backend "10.0.1.11") [web1, web2] "ls-web").error = false ∧
    countInstantiations
      (deploy_web_tier (reject_ip_backend "10.0.1.11") [web1, web2] "ls-web").trace = 1 := by
  have h := validation_failure_is_soft (reject_ip_backend "10.0.1.11") "ls-web"
    [web1] [] web2
    (by
      intro s hs
      simp only [List.append_nil, List.mem_singleton] at hs
      subst hs
      exact ⟨⟨{ valid := true, errors := [] }, rfl, rfl⟩,
             ⟨{ rules := ["r1", "r2"] }, rfl⟩⟩)
    ⟨{ valid := false, errors := ["ip rejected"] }, rfl, rfl⟩
  exact ⟨h.1, h.2.1⟩

/-- C2: a ServiceError raised while processing a prefix of a non-last tier
truncates the run right there: the remaining entities of that tier and all
entities of every later tier are never attempted (no call of theirs appears
in the trace), and the error surfaces at the top level.  Stated for each
non-last tier (web, application, data); the prefix `xs` ends at the entity
whose call raised. -/
theorem service_error_fail_fast (b : Backend) (infra : Infrastructure) :
    (∀ xs ys, infra.servers = xs ++ ys →
       (deploy_web_tier b xs infra.webSwitch).error = true →
       deploy_all b infra = deploy_web_tier b xs infra.webSwitch) ∧
    (∀ xs ys, infra.services = xs ++ ys →
       (deploy_web_tier b infra.servers infra.webSwitch).error = false →
       (deploy_microservices_loop b (service_ips (xs ++ ys)) xs infra.appSwitch).error = true →
       deploy_all b infra =
         { trace := (deploy_web_tier b infra.servers infra.webSwitch).trace ++
                    (deploy_microservices_loop b (service_ips (xs ++ ys)) xs
                       infra.appSwitch).trace,
           error := true }) ∧
    (∀ xs ys, infra.databases = xs ++ ys →
       (deploy_web_tier b infra.servers infra.webSwitch).error = false →
       (deploy_microservices b infra.services infra.appSwitch).error = false →
       (deploy_databases b xs infra.dataSwitch).error = true →
       deploy_all b infra =
         { trace := (deploy_web_tier b infra.servers infra.webSwitch).trace ++
                    (deploy_microservices b infra.services infra.appSwitch).trace ++
                    (deploy_databases b xs infra.dataSwitch).trace,
           error := true }) := by
  obtain ⟨wsw, srv, asw, svcs, dsw, dbs, ssw, res⟩ := infra
  refine ⟨?_, ?_, ?_⟩
  · intro xs ys hsplit herr
    dsimp only at hsplit herr ⊢
    subst hsplit
    have h1 : deploy_web_tier b (xs ++ ys) wsw = deploy_web_tier b xs wsw := by
      rw [deploy_web_tier_append, if_pos herr]
    simp [deploy_all, h1, herr]
  · intro xs ys hsplit hweb herr
    dsimp only at hsplit hweb herr ⊢
    subst hsplit
    have h2 : deploy_microservices b (xs ++ ys) asw =
        deploy_microservices_loop b (service_ips (xs ++ ys)) xs asw := by
      rw [deploy_microservices, deploy_microservices_loop_append, if_pos herr]
    simp [deploy_all, hweb, h2, herr]
  · intro xs ys hsplit hweb happ herr
    dsimp only at hsplit hweb happ herr ⊢
    subst hsplit
    have h3 : deploy_databases b (xs ++ ys) dsw = deploy_databases b xs dsw := by
      rw [deploy_databases_append, if_pos herr]
    simp [deploy_all, hweb, happ, h3, herr]

/-- Witness for C2: against a backend whose `microservice` instantiations
all raise, the run stops inside the application tier after `api-gateway`'s
failed call; the data and secure tiers are never reached. -/
theorem service_error_fail_fast_witness :
    deploy_all micro_fail_backend infrastructure =
      { trace :=
          (deploy_web_tier micro_fail_backend infrastructure.servers
             infrastructure.webSwitch).trace ++
          (deploy_microservices_loop micro_fail_backend
             (service_ips ([svc_api_gateway] ++ [svc_user, svc_order, svc_payment, svc_auth]))
             [svc_api_gateway] infrastructure.appSwitch).trace,
        error := true } :=
  (service_error_fail_fast micro_fail_backend infrastructure).2.1
    [svc_api_gateway] [svc_user, svc_order, svc_payment, svc_auth] rfl rfl rfl

/-- C6: the orchestrator runs the four tiers strictly in the order web →
application → data → secure-resources; in a run with no ServiceError the
whole call trace is the concatenation of the four tiers' traces, each tier
listing every one of its entities in order before the next tier starts. -/
theorem tiers_run_in_order (b : Backend) (infra : Infrastructure)
    (h1 : (deploy_web_tier b infra.servers infra.webSwitch).error = false)
    (h2 : (deploy_microservices b infra.services infra.appSwitch).error = false)
    (h3 : (deploy_databases b infra.databases infra.dataSwitch).error = false)
    (h4 : (deploy_zero_trust_resources b infra.resources infra.secureSwitch).error = false) :
    deploy_all b infra =
      { trace :=
          infra.servers.flatMap (web_events b infra.webSwitch) ++
          infra.services.map (fun svc => Event.instantiateCall "microservice"
            (microservice_vars (service_ips infra.services) svc) infra.appSwitch) ++
          infra.databases.map (fun db => Event.instantiateCall "database-server"
            (database_vars db) infra.dataSwitch) ++
          infra.resources.map (fun r => Event.instantiateCall "zero-trust"
            (zero_trust_vars r) infra.secureSwitch),
        error := false } := by
  have t1 := deploy_web_tier_trace_of_no_error b infra.servers infra.webSwitch h1
  have h2l : (deploy_microservices_loop b (service_ips infra.services) infra.services
      infra.appSwitch).error = false := by
    rw [← deploy_microservices]; exact h2
  have t2 := deploy_microservices_loop_trace_of_no_error b (service_ips infra.services)
    infra.services infra.appSwitch h2l
  have t3 := deploy_databases_trace_of_no_error b infra.databases infra.dataSwitch h3
  have t4 := deploy_zero_trust_resources_trace_of_no_error b infra.resources
    infra.secureSwitch h4
  simp [deploy_all, deploy_microservices, h1, h2l, h3, h4, t1, t2, t3, t4]

/-- Witness for C6: the fixture infrastructure of `main` against an
all-success backend produces the four tier traces in order with no error. -/
theorem tiers_run_in_order_witness :
    deploy_all ok_backend infrastructure =
      { trace :=
          infrastructure.servers.flatMap (web_events ok_backend infrastructure.webSwitch) ++
          infrastructure.services.map (fun svc => Event.instantiateCall "microservice"
            (microservice_vars (service_ips infrastructure.services) svc)
            infrastructure.appSwitch) ++
          infrastructure.databases.map (fun db => Event.instantiateCall "database-server"
            (database_vars db) infrastructure.dataSwitch) ++
          infrastructure.resources.map (fun r => Event.instantiateCall "zero-trust"
            (zero_trust_vars r) infrastructure.secureSwitch),
        error := false } :=
  tiers_run_in_order ok_backend infrastructure rfl rfl rfl rfl

theorem deploy_web_tier_gating (b : Backend) (sw : String) (servers : List Server) :
    ∀ vars sw2,
      Event.instantiateCall "web-server" vars sw2 ∈ (deploy_web_tier b servers sw).trace →
      sw2 = sw ∧
      (∃ l1 l2, (deploy_web_tier b servers sw).trace =
         l1 ++ Event.validateCall "web-server" vars ::
               Event.instantiateCall "web-server" vars sw2 :: l2) ∧
      (∃ v, b.validate "web-server" vars = Except.ok v ∧ v.valid = true) := by
  induction servers with
  | nil =>
    intro vars sw2 hm
    simp [deploy_web_tier] at hm
  | cons s rest ih =>
    intro vars sw2 hm
    cases hv : b.validate "web-server" (web_server_vars s) with
    | error e =>
      rw [deploy_web_tier, hv] at hm
      simp at hm
    | ok validation =>
      by_cases hval : validation.valid = false
      · rw [deploy_web_tier, hv] at hm ⊢
        simp only [hval, if_pos rfl] at hm ⊢
        rcases List.mem_cons.mp hm with h0 | h0
        · exact Event.noConfusion h0
        · obtain ⟨hsw, ⟨l1, l2, hl⟩, hvf⟩ := ih vars sw2 h0
          refine ⟨hsw, ⟨Event.validateCall "web-server" (web_server_vars s) :: l1, l2, ?_⟩, hvf⟩
          rw [hl]
          simp
      · have hvt : validation.valid = true := by
          rcases Bool.eq_false_or_eq_true validation.valid with h0 | h0
          · exact h0
          · exact absurd h0 hval
        cases hi : b.instantiate "web-server" (web_server_vars s) sw with
        | error e =>
          rw [deploy_web_tier, hv] at hm ⊢
          simp only [hval, hi] at hm ⊢
          rcases List.mem_cons.mp hm with h0 | h0
          · exact Event.noConfusion h0
          rcases List.mem_cons.mp h0 with h1 | h1
          · obtain ⟨ha, hb, hc⟩ := Event.instantiateCall.inj h1
            subst hb
            exact ⟨hc, ⟨[], [], by rw [hc]; simp⟩, ⟨validation, hv, hvt⟩⟩
          · simp at h1
        | ok res =>
          rw [deploy_web_tier, hv] at hm ⊢
          simp only [hval, hi] at hm ⊢
          rcases List.mem_cons.mp hm with h0 | h0
          · exact Event.noConfusion h0
          rcases List.mem_cons.mp h0 with h1 | h1
          · obtain ⟨ha, hb, hc⟩ := Event.instantiateCall.inj h1
            subst hb
            exact ⟨hc, ⟨[], (deploy_web_tier b rest sw).trace, by rw [hc]; simp⟩,
                   ⟨validation, hv, hvt⟩⟩
          · obtain ⟨hsw, ⟨l1, l2, hl⟩, hvf⟩ := ih vars sw2 h1
            refine ⟨hsw, ⟨Event.validateCall "web-server" (web_server_vars s) ::
              Event.instantiateCall "web-server" (web_server_vars s) sw :: l1, l2, ?_⟩, hvf⟩
            rw [hl]
            simp

/-- C1 fails as stated: `deploy_microservices` instantiates a Service
entity without any validate call ever being made — validation does not gate
instantiation for all four entity kinds. -/
theorem validation_gating_counterexample :
    (∃ e ∈ (deploy_microservices ok_backend [svc_payment] "ls-app").trace,
       isInstantiateCall e = true) ∧
    (∀ tid vars, Event.validateCall tid vars ∉
       (deploy_microservices ok_backend [svc_payment] "ls-app").trace) := by
  have htr : (deploy_microservices ok_backend [svc_payment] "ls-app").trace =
      [Event.instantiateCall "microservice"
        (microservice_vars (service_ips [svc_payment]) svc_payment) "ls-app"] := rfl
  constructor
  · refine ⟨Event.instantiateCall "microservice"
      (microservice_vars (service_ips [svc_payment]) svc_payment) "ls-app", ?_, rfl⟩
    rw [htr]
    exact List.mem_singleton_self _
  · intro tid vars hm
    rw [htr] at hm
    simp only [List.mem_singleton] at hm
    exact Event.noConfusion hm

/-- C1 (amended): validation gates instantiation only for Server entities —
in `deploy_web_tier` every instantiate call is immediately preceded by the
validate call on the same variable set and occurs only when the backend
returned valid == true, while the Service, Database and SecureResource
deployers never call validate at all. -/
theorem validation_gating_amended (b : Backend) (sw : String)
    (servers : List Server) (services : List Service)
    (databases : List Database) (resources : List SecureResource) :
    (∀ vars sw2,
       Event.instantiateCall "web-server" vars sw2 ∈ (deploy_web_tier b servers sw).trace →
       sw2 = sw ∧
       (∃ l1 l2, (deploy_web_tier b servers sw).trace =
          l1 ++ Event.validateCall "web-server" vars ::
                Event.instantiateCall "web-server" vars sw2 :: l2) ∧
       (∃ v, b.validate "web-server" vars = Except.ok v ∧ v.valid = true)) ∧
    (∀ tid vars, Event.validateCall tid vars ∉ (deploy_microservices b services sw).trace) ∧
    (∀ tid vars, Event.validateCall tid vars ∉ (deploy_databases b databases sw).trace) ∧
    (∀ tid vars, Event.validateCall tid vars ∉
       (deploy_zero_trust_resources b resources sw).trace) := by
  refine ⟨deploy_web_tier_gating b sw servers, ?_, ?_, ?_⟩
  · intro tid vars hm
    rw [deploy_microservices] at hm
    have h0 := deploy_microservices_loop_only_instantiate b (service_ips services)
      services sw _ hm
    exact absurd h0 (by simp [isInstantiateCall])
  · intro tid vars hm
    have h0 := deploy_databases_only_instantiate b databases sw _ hm
    exact absurd h0 (by simp [isInstantiateCall])
  · intro tid vars hm
    have h0 := deploy_zero_trust_resources_only_instantiate b resources sw _ hm
    exact absurd h0 (by simp [isInstantiateCall])

/-- Witness for C1 (amended): on the one-server web tier against the
all-success backend, the instantiate call for `web-1` is gated by a passing
validation. -/
theorem validation_gating_amended_witness :
    ∃ v, ok_backend.validate "web-server" (web_server_vars web1) = Except.ok v ∧
      v.valid = true :=
  ((validation_gating_amended ok_backend "ls-web" [web1] [] [] []).1
    (web_server_vars web1) "ls-web" (by decide)).2.2
